import Mathlib

/-!
Verification of the LibraryGuard specification against a shallow embedding of
the libguard sources (src/libguard).  Each definition below is translated from
a named function of the Python source; the line numbers in the doc comments
refer to the source files.  I/O effects (filesystem, SQLite, xattr syscalls)
are modelled as explicit state passing; Python exceptions are modelled with
`Except`/`Option`.
-/

namespace Libguard

/-- Error taxonomy, from `LgErr` in `src/libguard/__init__.py` (lines 81-100),
in source declaration order. -/
inductive LgErr where
  | EOK
  | EINVFORMAT
  | EINVBRATE
  | EINVSRATE
  | EINVBITS
  | EINVTAGS
  | EMISSINGTAGS
  | ECORRUPTED
  | EINCONSISTENT
  | EEMPTY
  | EIGNORE
  | ERIP
  | EINVPATH
  | ERGAIN
  | EDBERR
  | EACCESS
  | ETERMINATE
  | EUNKNOWN
  deriving DecidableEq, Repr

/-- `LgDirectory._pick_withdraw_err` from `src/libguard/lgdirectory.py`
(lines 80-123): an empty error list yields `EOK`; otherwise the chain of
membership tests returns the first of `EINVFORMAT`, `EINVTAGS`,
`EMISSINGTAGS`, `EINCONSISTENT`, `ECORRUPTED`, `EINVSRATE`, `EINVBRATE`
present, else `EUNKNOWN`. -/
def pick_withdraw_err (errors : List LgErr) : LgErr :=
  if errors.length = 0 then LgErr.EOK
  else if LgErr.EINVFORMAT ∈ errors then LgErr.EINVFORMAT
  else if LgErr.EINVTAGS ∈ errors then LgErr.EINVTAGS
  else if LgErr.EMISSINGTAGS ∈ errors then LgErr.EMISSINGTAGS
  else if LgErr.EINCONSISTENT ∈ errors then LgErr.EINCONSISTENT
  else if LgErr.ECORRUPTED ∈ errors then LgErr.ECORRUPTED
  else if LgErr.EINVSRATE ∈ errors then LgErr.EINVSRATE
  else if LgErr.EINVBRATE ∈ errors then LgErr.EINVBRATE
  else LgErr.EUNKNOWN

/-- The priority order the spec gives for `pick_worst` (spec section 4.8). -/
def pickPriority : List LgErr :=
  [LgErr.EINVFORMAT, LgErr.EINVTAGS, LgErr.EMISSINGTAGS, LgErr.EINCONSISTENT,
   LgErr.ECORRUPTED, LgErr.EINVSRATE, LgErr.EINVBRATE]

/-- Modelled from the spec (section 4.8): `pick_worst(set)` returns, in order,
the first of the seven prioritized kinds present in the multiset, else
`UNKNOWN` on a non-empty set with no match, else `OK`.  Used only to compare
against the source-derived `pick_withdraw_err`. -/
def pick_worst_spec (errors : List LgErr) : LgErr :=
  if errors = [] then LgErr.EOK
  else
    match pickPriority.find? (fun k => decide (k ∈ errors)) with
    | some k => k
    | none => LgErr.EUNKNOWN

/-- Severity rank for the error taxonomy, following the worst-to-least order
of spec section 3: `INVALID_FORMAT, INVALID_TAGS, MISSING_TAGS, INCONSISTENT,
CORRUPTED, INVALID_SAMPLE_RATE, INVALID_BIT_RATE, INVALID_BIT_DEPTH,
RGAIN_FAILED, EMPTY, IGNORE, ACCESS_DENIED, DB_ERROR, TERMINATE, UNKNOWN, OK`
(rank 0 = worst).  The spec omits `ERIP` and `EINVPATH`; they are never
returned by `pick_withdraw_err`, and are placed in the `UNKNOWN` bucket. -/
def severityRank : LgErr → Nat
  | LgErr.EINVFORMAT => 0
  | LgErr.EINVTAGS => 1
  | LgErr.EMISSINGTAGS => 2
  | LgErr.EINCONSISTENT => 3
  | LgErr.ECORRUPTED => 4
  | LgErr.EINVSRATE => 5
  | LgErr.EINVBRATE => 6
  | LgErr.EINVBITS => 7
  | LgErr.ERGAIN => 8
  | LgErr.EEMPTY => 9
  | LgErr.EIGNORE => 10
  | LgErr.EACCESS => 11
  | LgErr.EDBERR => 12
  | LgErr.ETERMINATE => 13
  | LgErr.ERIP => 14
  | LgErr.EINVPATH => 14
  | LgErr.EUNKNOWN => 14
  | LgErr.EOK => 15

/-- First element of the priority list present in the bag (`EUNKNOWN` when
none is); helper for reasoning about the if-chain of `pick_withdraw_err`. -/
def firstPresent : List LgErr → List LgErr → LgErr
  | [], _ => LgErr.EUNKNOWN
  | k :: rest, s => if k ∈ s then k else firstPresent rest s

/-- Index of the first element of the priority list present in the bag
(length of the priority list when none is). -/
def fpIdx : List LgErr → List LgErr → Nat
  | [], _ => 0
  | k :: rest, s => if k ∈ s then 0 else fpIdx rest s + 1

lemma firstPresent_eq_getD (prio s : List LgErr) :
    firstPresent prio s = prio.getD (fpIdx prio s) LgErr.EUNKNOWN := by
  induction prio with
  | nil => rfl
  | cons k rest ih =>
    by_cases h : k ∈ s
    · simp [firstPresent, fpIdx, h]
    · simp [firstPresent, fpIdx, h, ih]

lemma fpIdx_mono (s t : List LgErr) (hsub : ∀ e, e ∈ s → e ∈ t) :
    ∀ prio, fpIdx prio t ≤ fpIdx prio s := by
  intro prio
  induction prio with
  | nil => exact Nat.le_refl 0
  | cons k rest ih =>
    by_cases hks : k ∈ s
    · have hkt : k ∈ t := hsub k hks
      simp [fpIdx, hks, hkt]
    · by_cases hkt : k ∈ t
      · simp [fpIdx, hkt]
      · simp [fpIdx, hks, hkt]
        omega

lemma pick_withdraw_err_eq_firstPresent (s : List LgErr) (hs : s ≠ []) :
    pick_withdraw_err s = firstPresent pickPriority s := by
  have hlen : s.length ≠ 0 := by
    cases s with
    | nil => exact absurd rfl hs
    | cons a l => simp
  simp only [pick_withdraw_err, hlen, if_false, pickPriority, firstPresent]

lemma severityRank_getD_mono (i j : Nat) (hij : i ≤ j) :
    severityRank (pickPriority.getD i LgErr.EUNKNOWN) ≤
      severityRank (pickPriority.getD j LgErr.EUNKNOWN) := by
  have hval : ∀ n : Nat,
      severityRank (pickPriority.getD n LgErr.EUNKNOWN) =
        if n < 7 then n else 14 := by
    intro n
    by_cases hn : n < 7
    · interval_cases n <;> simp [pickPriority, severityRank]
    · have hlen : pickPriority.length ≤ n := by
        simp [pickPriority]; omega
      rw [List.getD_eq_default _ _ hlen]
      simp [severityRank, hn]
  rw [hval i, hval j]
  split_ifs <;> omega

lemma severityRank_le_EOK (k : LgErr) : severityRank k ≤ severityRank LgErr.EOK := by
  cases k <;> simp [severityRank]

/-- Claim C1: `pick_worst` applied to any multiset of error kinds returns the
first kind present among `EINVFORMAT`, `EINVTAGS`, `EMISSINGTAGS`,
`EINCONSISTENT`, `ECORRUPTED`, `EINVSRATE`, `EINVBRATE` in that order,
`EUNKNOWN` for every non-empty multiset containing none of these, and `EOK`
for the empty multiset: the source function `pick_withdraw_err` coincides with
the spec-worded selector `pick_worst_spec` on every input. -/
theorem claim_C1 (errors : List LgErr) :
    pick_withdraw_err errors = pick_worst_spec errors := by
  cases errors with
  | nil => rfl
  | cons a l =>
    have hne : (a :: l) ≠ ([] : List LgErr) := by simp
    rw [pick_withdraw_err_eq_firstPresent _ hne]
    simp only [pick_worst_spec, hne, if_false, pickPriority, List.find?, firstPresent]
    by_cases h1 : LgErr.EINVFORMAT ∈ a :: l <;>
      by_cases h2 : LgErr.EINVTAGS ∈ a :: l <;>
      by_cases h3 : LgErr.EMISSINGTAGS ∈ a :: l <;>
      by_cases h4 : LgErr.EINCONSISTENT ∈ a :: l <;>
      by_cases h5 : LgErr.ECORRUPTED ∈ a :: l <;>
      by_cases h6 : LgErr.EINVSRATE ∈ a :: l <;>
      by_cases h7 : LgErr.EINVBRATE ∈ a :: l <;>
      simp [h1, h2, h3, h4, h5, h6, h7]

/-- Counterexample to claim C2's idempotence half: `EINVBITS`
(`INVALID_BIT_DEPTH`, a kind of the spec's error taxonomy) is not among the
seven prioritized kinds, so the singleton containing it selects `EUNKNOWN`,
not `EINVBITS`. -/
theorem claim_C2_counterexample :
    pick_withdraw_err [LgErr.EINVBITS] ≠ LgErr.EINVBITS ∧
      pick_withdraw_err [LgErr.EINVBITS] = LgErr.EUNKNOWN := by
  constructor <;> decide

/-- Claim C2 (amended): `pick_worst` is idempotent on the seven prioritized
kinds and on `EUNKNOWN` (for every such kind `x`, `pick_worst({x}) = x`), and
monotone: adding any kind — in particular a worse one in the worst-to-least
ordering of the error taxonomy — never makes the selected result less severe. -/
theorem claim_C2 :
    (∀ x : LgErr, x ∈ pickPriority ++ [LgErr.EUNKNOWN] →
      pick_withdraw_err [x] = x) ∧
    (∀ (s : List LgErr) (x : LgErr),
      severityRank (pick_withdraw_err (x :: s)) ≤
        severityRank (pick_withdraw_err s)) := by
  constructor
  · intro x hx
    simp only [pickPriority, List.mem_append, List.mem_cons,
      List.mem_singleton, List.not_mem_nil, or_false] at hx
    rcases hx with (h | h | h | h | h | h | h) | h <;> subst h <;> decide
  · intro s x
    cases s with
    | nil => exact severityRank_le_EOK _
    | cons a l =>
      have hne₁ : (x :: a :: l) ≠ ([] : List LgErr) := by simp
      have hne₂ : (a :: l) ≠ ([] : List LgErr) := by simp
      rw [pick_withdraw_err_eq_firstPresent _ hne₁,
        pick_withdraw_err_eq_firstPresent _ hne₂,
        firstPresent_eq_getD, firstPresent_eq_getD]
      apply severityRank_getD_mono
      apply fpIdx_mono
      intro e he
      exact List.mem_cons_of_mem _ he

/-- Witness for claim C2 at concrete inputs: idempotence at `EINVFORMAT` and
monotonicity of adding `EINVTAGS` to the bag `[ECORRUPTED]`. -/
theorem claim_C2_witness :
    pick_withdraw_err [LgErr.EINVFORMAT] = LgErr.EINVFORMAT ∧
      severityRank (pick_withdraw_err [LgErr.EINVTAGS, LgErr.ECORRUPTED]) ≤
        severityRank (pick_withdraw_err [LgErr.ECORRUPTED]) :=
  ⟨claim_C2.1 LgErr.EINVFORMAT (by decide), claim_C2.2 [LgErr.ECORRUPTED] LgErr.EINVTAGS⟩

/-! ## Claim C3: quality metric of files that failed verification -/

/-- Stream fields of `LgAudioFile.TrackInfo` consumed by
`_calculate_quality_metric` (`src/libguard/lgfile.py`, lines 727-793).
Rationals stand for the Python floats; `track_lra` / `track_peak` are the
optional replay-gain fields. -/
structure QmInputs where
  sample_rate : ℚ
  bit_depth : ℚ
  bit_rate : ℚ
  track_lra : Option ℚ
  track_peak : Option ℚ
  deriving Repr

/-- `LgAudioFile._calculate_quality_metric` from `src/libguard/lgfile.py`
(lines 727-793), parametrized by the transcendental helpers `math.log2` and
`math.exp` (their exact values never affect whether the result is `none`).
The source sets `self._quality_metric = None` when `_verification_state` is
not `EOK` (line 730) but does NOT return there: the assignment at line 784
unconditionally overwrites `_quality_metric` with the weighted sum, which the
function then returns.  The `none` written at line 730 is therefore dead, as
this embedding makes explicit. -/
def calculate_quality_metric (log2 exp : ℚ → ℚ)
    (verification_state : LgErr) (ti : QmInputs) (format_weight : ℚ) : Option ℚ :=
  -- lgfile.py:729-730 (dead store, no early return follows it)
  let _dead_store : Option ℚ :=
    if verification_state ≠ LgErr.EOK then none else none
  let sample_rate_factor := log2 (ti.sample_rate / 48000)
  let bit_depth_factor := log2 (ti.bit_depth / 24)
  let bitrate_factor := log2 (ti.bit_rate / 705600)
  let dynamic_range_factor : ℚ :=
    match ti.track_lra with
    | none => 1/2
    | some lra =>
        if lra > 0 then
          max (1/5) (min 1 (exp (-(1/2) * ((lra / 10 - 1)^2) / (1/2))))
        else 1/2
  let peak_factor : ℚ :=
    match ti.track_peak with
    | none => 1
    | some peak =>
        if peak > 0 then
          if peak > 95/100 then
            let penalty_percentage := (peak - 95/100) * 2
            let pf := 1 - penalty_percentage
            match ti.track_lra with
            | some lra => if lra < 6 then pf - (6 - lra) / 60 else pf
            | none => pf
          else 1
        else 1
  some (sample_rate_factor * (1/4) + bit_depth_factor * (1/4) +
    bitrate_factor * (15/100) + dynamic_range_factor * (15/100) +
    peak_factor * (1/10) + format_weight * (11/10))

/-- `LgAudioFile.get_qm` from `src/libguard/lgfile.py` (lines 1085-1096):
`none` when `_quality_metric` is `none`, the normalized metric when a scaling
factor was set, and the raw metric otherwise. -/
def get_qm (quality_metric qm_scaling_factor : Option ℚ) : Option ℚ :=
  match quality_metric with
  | none => none
  | some q =>
      match qm_scaling_factor with
      | some sf => some (q / (q + sf))
      | none => some q

/-- Claim C3 (code bug): for every verification state — in particular every
failed one — `_calculate_quality_metric` stores a numeric metric, never
`none`, and `get_qm` therefore never returns `none` for such a file; evaluated
at the failing input, a corrupted file (verification state `ECORRUPTED`,
reference-valued stream fields, FLAC format weight 1) still receives quality
metric `1.275`.  The `None` assigned at `lgfile.py:730` is immediately
overwritten because the function lacks an early return, contradicting the
claim (and the source's own comment at line 728) that a file that failed
verification has a null quality metric and loses every comparison. -/
theorem claim_C3 :
    (∀ (log2 exp : ℚ → ℚ) (verification_state : LgErr)
      (ti : QmInputs) (format_weight : ℚ) (qm_scaling_factor : Option ℚ),
      (calculate_quality_metric log2 exp verification_state ti format_weight).isSome = true ∧
        get_qm (calculate_quality_metric log2 exp verification_state ti format_weight)
          qm_scaling_factor ≠ none) ∧
    get_qm (calculate_quality_metric (fun _ => 0) (fun _ => 0) LgErr.ECORRUPTED
        ⟨48000, 24, 705600, none, none⟩ 1) none = some (1275/1000) := by
  constructor
  · intro log2 exp verification_state ti format_weight qm_scaling_factor
    refine ⟨rfl, ?_⟩
    simp only [calculate_quality_metric, get_qm]
    cases qm_scaling_factor <;> simp
  · norm_num [calculate_quality_metric, get_qm]

/-! ## Claim C4: verification stamp and group-write bit after finalization -/

/-- Python exceptions that the modelled code can raise. -/
inductive PyExc where
  | typeError
  | valueError
  | nameError
  | lgError (e : LgErr)
  deriving DecidableEq, Repr

/-- Value of the `user.lguard_verification_ts` extended attribute of a file.
`ts n` stands for the decimal-ASCII string of the integer `n` (the form the
code itself writes); `nonNumeric` stands for any present string that Python's
`int()` rejects; `absent` makes `getxattr` raise `OSError`. -/
inductive XattrVal where
  | absent
  | nonNumeric
  | ts (n : Nat)
  deriving DecidableEq, Repr

/-- Per-file filesystem state consumed by the verification cache: the file's
current mtime (as the integer `int(st_mtime)`), the
`user.lguard_verification_ts` attribute, and the `S_IWGRP` (group-write) bit
of the file mode. -/
structure FileFsState where
  mtime : Nat
  xattr_ts : XattrVal
  group_write : Bool
  deriving DecidableEq, Repr

/-- `LgFile._update_verification_ts_on_xattrs` from `src/libguard/lgfile.py`
(lines 93-124), on the happy path where the syscalls themselves succeed (their
failures are swallowed as warnings by the source and are outside this claim).
After `os.sync()` the current mtime is read; `getxattr` failure (`OSError`,
modelled by `absent`) yields `check_ts = None`; a present non-numeric value
makes `int()` raise `ValueError`, which no except-clause catches (modelled as
`Except.error`).  Only when `check_ts` is `None` or differs from the mtime are
the attribute written and the group-write bit removed; otherwise the state is
left untouched. -/
def update_verification_ts_on_xattrs (fs : FileFsState) :
    Except PyExc FileFsState :=
  let mtime := fs.mtime
  match fs.xattr_ts with
  | XattrVal.nonNumeric => Except.error PyExc.valueError
  | XattrVal.absent =>
      Except.ok { fs with xattr_ts := XattrVal.ts mtime, group_write := false }
  | XattrVal.ts check_ts =>
      if mtime ≠ check_ts then
        Except.ok { fs with xattr_ts := XattrVal.ts mtime, group_write := false }
      else
        Except.ok fs

/-- Guard context of `LgAudioFile.__exit__` (`src/libguard/lgfile.py`, lines
992-1025): the file's verification state, whether `exc_value` was `None` or an
`LgException` carrying `EOK`, whether `fentry` is still set, the
`_should_delete` mark, the `ODRYRUN` option, and the `tags_updated` flag. -/
structure AudioExitCtx where
  verification_state : LgErr
  exc_ok : Bool
  has_fentry : Bool
  should_delete : Bool
  dry_run : Bool
  tags_updated : Bool
  deriving DecidableEq, Repr

/-- Outcome of `LgAudioFile.__exit__` on the file's filesystem state. -/
inductive AudioExitOutcome where
  | updated (fs : FileFsState)
  | skipped
  | raised (e : PyExc)
  deriving DecidableEq, Repr

/-- `LgAudioFile.__exit__` from `src/libguard/lgfile.py` (lines 992-1025),
restricted to its effect on the verification stamp and mode.  `fs_after_save`
is the file's filesystem state right after `tag_handler.save()` rewrote the
file (its mtime is whatever `os.stat` then reports); `save_ok` is whether
`save()` succeeded (a `MutagenError` is logged and skips the stamp update).
The stamp is updated only when verification succeeded, no directory-level
error was signalled, the file was not deleted, this is not a dry run, and the
tags were actually updated. -/
def lg_audio_file_exit (c : AudioExitCtx) (fs_after_save : FileFsState)
    (save_ok : Bool) : AudioExitOutcome :=
  if c.verification_state = LgErr.EOK ∧ c.exc_ok = true ∧
      c.has_fentry = true ∧ c.should_delete = false then
    if c.dry_run then AudioExitOutcome.skipped
    else if c.tags_updated then
      if save_ok then
        match update_verification_ts_on_xattrs fs_after_save with
        | Except.ok fs2 => AudioExitOutcome.updated fs2
        | Except.error e => AudioExitOutcome.raised e
      else AudioExitOutcome.skipped
    else AudioExitOutcome.skipped
  else AudioExitOutcome.skipped

/-- Counterexample to claim C4: a file successfully finalized in non-dry-run
mode (verification `EOK`, tags updated, `save()` succeeded, not deleted) whose
stored stamp already equals the current mtime keeps its group-write bit: the
skip branch of `_update_verification_ts_on_xattrs` (lgfile.py:107) neither
rewrites the attribute nor calls `chmod`, so the claimed postcondition
"group-write bit is 0" fails. -/
theorem claim_C4_counterexample :
    lg_audio_file_exit
        ⟨LgErr.EOK, true, true, false, false, true⟩
        ⟨100, XattrVal.ts 100, true⟩ true =
      AudioExitOutcome.updated ⟨100, XattrVal.ts 100, true⟩ ∧
    (⟨100, XattrVal.ts 100, true⟩ : FileFsState).group_write ≠ false := by
  constructor <;> decide

/-- Claim C4 (amended): for every audio file successfully finalized in
non-dry-run mode (verification `EOK`, no directory error, tags updated and
saved, not marked for deletion), afterwards `user.lguard_verification_ts`
holds the file's current mtime in decimal ASCII; the group-write bit is 0
whenever the stored stamp was absent or differed from the current mtime
beforehand (when it already matched, the mode is left untouched). -/
theorem claim_C4 (c : AudioExitCtx) (fs : FileFsState) (fs2 : FileFsState)
    (hv : c.verification_state = LgErr.EOK) (he : c.exc_ok = true)
    (hf : c.has_fentry = true) (hd : c.should_delete = false)
    (hdry : c.dry_run = false) (ht : c.tags_updated = true)
    (hout : lg_audio_file_exit c fs true = AudioExitOutcome.updated fs2) :
    fs2.xattr_ts = XattrVal.ts fs2.mtime ∧
      (fs.xattr_ts ≠ XattrVal.ts fs.mtime → fs2.group_write = false) := by
  obtain ⟨m, x, g⟩ := fs
  simp only [lg_audio_file_exit, hv, he, hf, hd, hdry, ht, if_true, if_false,
    and_self, true_and, Bool.false_eq_true] at hout
  cases x with
  | absent =>
      simp only [update_verification_ts_on_xattrs] at hout
      cases hout
      exact ⟨rfl, fun _ => rfl⟩
  | nonNumeric =>
      simp [update_verification_ts_on_xattrs] at hout
  | ts check_ts =>
      simp only [update_verification_ts_on_xattrs] at hout
      by_cases hm : m ≠ check_ts
      · rw [if_pos hm] at hout
        cases hout
        exact ⟨rfl, fun _ => rfl⟩
      · rw [if_neg hm] at hout
        cases hout
        push_neg at hm
        refine ⟨by rw [hm], ?_⟩
        intro hne
        exact absurd (by rw [hm]) hne

/-- Witness for claim C4: a finalized file whose stamp was stale (`ts 50` vs
mtime 100) ends with stamp `ts 100` and the group-write bit cleared. -/
theorem claim_C4_witness :
    (⟨100, XattrVal.ts 100, false⟩ : FileFsState).xattr_ts =
        XattrVal.ts (⟨100, XattrVal.ts 100, false⟩ : FileFsState).mtime ∧
      ((⟨100, XattrVal.ts 50, true⟩ : FileFsState).xattr_ts ≠
          XattrVal.ts (⟨100, XattrVal.ts 50, true⟩ : FileFsState).mtime →
        (⟨100, XattrVal.ts 100, false⟩ : FileFsState).group_write = false) :=
  claim_C4 ⟨LgErr.EOK, true, true, false, false, true⟩
    ⟨100, XattrVal.ts 50, true⟩ ⟨100, XattrVal.ts 100, false⟩
    rfl rfl rfl rfl rfl rfl (by decide)

/-! ## Claim C5: set-propagation of the withdraw protocol -/

/-- The slice of an `LgDirectory` record that `withdraw` reads and writes
(`src/libguard/lgdirectory.py`): the error bag, the `WITHDRAWN` and
`PART_OF_SET` flags. -/
structure DirRec where
  errors : List LgErr
  withdrawn : Bool
  part_of_set : Bool
  deriving DecidableEq, Repr

/-- `LgDirectory.should_withdraw` from `src/libguard/lgdirectory.py`
(lines 487-491): the error bag is non-empty and the directory is not already
withdrawn. -/
def should_withdraw (d : DirRec) : Bool :=
  !d.errors.isEmpty && !d.withdrawn

/-- The three-level slice of the tree that a single `withdraw` call can see:
the directory itself, its parent and its grandparent (the latter only to
state that escalation never reaches it). -/
structure WithdrawWorld where
  child : DirRec
  parent : Option DirRec
  gparent : Option DirRec
  deriving DecidableEq, Repr

/-- The junkyard-move tail of `LgDirectory.withdraw`
(`src/libguard/lgdirectory.py`, lines 521-568) on the happy path where
`makedirs`, the per-entry moves and the final `rmtree` all succeed: under
`ODRYRUN` only the intent is logged; otherwise the contents are moved and the
directory is marked `WITHDRAWN` (with `new_path` set). -/
def withdraw_move (dry_run : Bool) (w : WithdrawWorld) : WithdrawWorld :=
  if dry_run then w
  else { w with child := { w.child with withdrawn := true } }

/-- `LgDirectory.withdraw` from `src/libguard/lgdirectory.py` (lines 496-570):
nothing happens unless `should_withdraw`; a `PART_OF_SET` directory with a
parent appends its worst error to the parent's bag when the parent is not yet
eligible, and otherwise just waits for the parent; in every other case the
directory itself is moved to the junkyard (`withdraw_move`). -/
def withdraw (dry_run : Bool) (w : WithdrawWorld) : WithdrawWorld :=
  if ¬ should_withdraw w.child then w
  else
    let withdraw_err := pick_withdraw_err w.child.errors
    match w.parent with
    | some p =>
        if w.child.part_of_set then
          if ¬ should_withdraw p then
            { w with parent := some { p with errors := p.errors ++ [withdraw_err] } }
          else w
        else withdraw_move dry_run w
    | none => withdraw_move dry_run w

lemma isEmpty_false_of_ne_nil {α : Type} {l : List α} (h : l ≠ []) :
    l.isEmpty = false := by
  cases l with
  | nil => exact absurd rfl h
  | cons a t => rfl

lemma ne_nil_of_isEmpty_false {α : Type} {l : List α} (h : l.isEmpty = false) :
    l ≠ [] := by
  cases l with
  | nil => simp at h
  | cons a t => simp

/-- Counterexample to claim C5: a `PART_OF_SET` directory with a non-empty
error bag but no parent, visited in dry-run mode, ends neither `WITHDRAWN`
nor with any parent error bag to escalate into — `withdraw` falls through to
the move branch (lgdirectory.py:512 requires a parent for escalation) and the
dry-run check at line 521 returns before marking anything. -/
theorem claim_C5_counterexample :
    (withdraw true ⟨⟨[LgErr.EINCONSISTENT], false, true⟩, none, none⟩).child.withdrawn
        = false ∧
      (withdraw true ⟨⟨[LgErr.EINCONSISTENT], false, true⟩, none, none⟩).parent
        = none := by
  constructor <;> decide

/-- Claim C5 (amended): for every directory marked `PART_OF_SET` whose error
bag is non-empty and that has a parent, after the withdraw protocol runs
either that directory is marked `WITHDRAWN` or its parent's error bag contains
at least one element; the escalation reaches exactly the immediate parent one
level up and never propagates further (the grandparent is untouched, whatever
it is). -/
theorem claim_C5 (dry_run : Bool) (w : WithdrawWorld) (p : DirRec)
    (hset : w.child.part_of_set = true)
    (herr : w.child.errors ≠ [])
    (hpar : w.parent = some p) :
    ((withdraw dry_run w).child.withdrawn = true ∨
      (∃ p2, (withdraw dry_run w).parent = some p2 ∧ p2.errors ≠ [])) ∧
    (withdraw dry_run w).gparent = w.gparent := by
  cases hsw : should_withdraw w.child with
  | false =>
    -- not eligible: since the bag is non-empty, the directory is already withdrawn
    have hwd : w.child.withdrawn = true := by
      rcases Bool.eq_false_or_eq_true w.child.withdrawn with h | h
      · exact h
      · exfalso
        have h2 : should_withdraw w.child = true := by
          simp only [should_withdraw, Bool.and_eq_true, Bool.not_eq_true']
          exact ⟨isEmpty_false_of_ne_nil herr, h⟩
        rw [h2] at hsw
        exact Bool.noConfusion hsw
    have hres : withdraw dry_run w = w := by
      simp [withdraw, hsw]
    rw [hres]
    exact ⟨Or.inl hwd, rfl⟩
  | true =>
    cases hp : should_withdraw p with
    | false =>
      -- parent not yet eligible: the worst error is appended to its bag
      have hres : withdraw dry_run w =
          ⟨w.child, some ⟨p.errors ++ [pick_withdraw_err w.child.errors],
            p.withdrawn, p.part_of_set⟩, w.gparent⟩ := by
        simp [withdraw, hsw, hpar, hset, hp]
      rw [hres]
      exact ⟨Or.inr ⟨_, rfl, by simp⟩, rfl⟩
    | true =>
      -- parent already eligible: its bag is already non-empty, nothing moves
      have hres : withdraw dry_run w = w := by
        simp [withdraw, hsw, hpar, hset, hp]
      rw [hres]
      have hpe : p.errors ≠ [] := by
        simp only [should_withdraw, Bool.and_eq_true, Bool.not_eq_true'] at hp
        exact ne_nil_of_isEmpty_false hp.1
      exact ⟨Or.inr ⟨p, hpar, hpe⟩, rfl⟩

/-- Witness for claim C5: an eligible `PART_OF_SET` disc directory whose
parent has an empty bag escalates its `EMISSINGTAGS` into the parent's bag. -/
theorem claim_C5_witness :
    ((withdraw false ⟨⟨[LgErr.EMISSINGTAGS], false, true⟩,
          some ⟨[], false, false⟩, some ⟨[], false, false⟩⟩).child.withdrawn = true ∨
      (∃ p2, (withdraw false ⟨⟨[LgErr.EMISSINGTAGS], false, true⟩,
          some ⟨[], false, false⟩, some ⟨[], false, false⟩⟩).parent = some p2 ∧
        p2.errors ≠ [])) ∧
    (withdraw false ⟨⟨[LgErr.EMISSINGTAGS], false, true⟩,
        some ⟨[], false, false⟩, some ⟨[], false, false⟩⟩).gparent =
      (⟨⟨[LgErr.EMISSINGTAGS], false, true⟩,
        some ⟨[], false, false⟩, some ⟨[], false, false⟩⟩ : WithdrawWorld).gparent :=
  claim_C5 false _ ⟨[], false, false⟩ rfl (by decide) rfl

/-! ## Claims C6 and C7: audio directory reconciliation
(`LgAudioDirectory.__init__`, `src/libguard/lgdirectory.py` lines 617-865) -/

/-- The per-file data `LgAudioDirectory.__init__` reads from each audio
file's `TrackInfo` (plus the file's basename for the prefix check). -/
structure AudioMeta where
  name : String
  track_number : Option Nat
  num_tracks : Option Nat
  num_discs : Option Nat
  disc_number : Option Nat
  album_id : Option String
  releasegroup_id : Option String
  album_gain : Option ℚ
  album_peak : Option ℚ
  deriving DecidableEq, Repr

/-- The directory flags touched during audio reconciliation
(`_DirectoryFlags` bits `STANDALONE`, `CHECK_DUPLICATES`, `NEEDS_RGAIN`,
`PARTIAL_RELEASE` — shortened to `p_release` — and `PART_OF_SET`). -/
structure AFlags where
  standalone : Bool
  check_duplicates : Bool
  needs_rgain : Bool
  p_release : Bool
  part_of_set : Bool
  deriving DecidableEq, Repr

/-- Rolling state of the single-pass scan over the sorted audio files
(the local variables of `LgAudioDirectory.__init__` plus the directory's
error bag and flags). -/
structure LoopSt where
  errors : List LgErr
  flags : AFlags
  num_tracks : Option Nat
  num_discs : Option Nat
  disc_number : Option Nat
  album_id : Option String
  releasegroup_id : Option String
  album_gain : Option ℚ
  album_peak : Option ℚ
  last_track_no : Option Nat
  deriving DecidableEq, Repr

/-- Initial flags of an audio directory before reconciliation (none of the
five modelled bits is set by `LgDirectory.__new__` for an audio directory). -/
def init_flags : AFlags := ⟨false, false, false, false, false⟩

/-- Initial scan state: empty error bag, clean flags, all rolling fields
`None`. -/
def init_loop_st : LoopSt :=
  ⟨[], init_flags, none, none, none, none, none, none, none, none⟩

/-- Helper for `py_split_ws`: walk the characters, accumulating the current
token (in reverse) and emitting it at each whitespace run or at the end. -/
def split_ws_aux : List Char → List Char → List (List Char)
  | [], acc => if acc.isEmpty then [] else [acc.reverse]
  | c :: rest, acc =>
      if c.isWhitespace then
        if acc.isEmpty then split_ws_aux rest []
        else acc.reverse :: split_ws_aux rest []
      else split_ws_aux rest (c :: acc)

/-- Python's `str.split()` with no argument: split on whitespace runs,
dropping empty tokens (tokens as character lists, so everything computes by
kernel reduction). -/
def py_split_ws (s : String) : List (List Char) :=
  split_ws_aux s.data []

/-- Python's `str.isdigit()` restricted to ASCII: non-empty and all digits. -/
def py_isdigit (cs : List Char) : Bool :=
  !cs.isEmpty && cs.all Char.isDigit

/-- Python's `int()` on an all-digit ASCII string (total here; `int()` cannot
fail on a token that passed `isdigit`). -/
def digits_to_nat (cs : List Char) : Nat :=
  cs.foldl (fun n c => n * 10 + (c.toNat - 48)) 0

/-- The kind an audio directory ends up as: still a plain
`LgAudioDirectory` (errors or standalone), an `LgAlbumDirectory`, or an
`LgDiscDirectory` (class mutation at `lgdirectory.py:858-861`). -/
inductive AudioDirKind where
  | plain
  | album
  | disc
  deriving DecidableEq, Repr

set_option maxHeartbeats 1000000 in
/-- One iteration of the scan loop (`lgdirectory.py:674-783`) over one audio
file.  `Except.error` models the `break` statements: the loop stops with the
final state.  The order of checks follows the source: track-number presence,
continuity / duplicate detection, filename prefix, then the five identity
fields, then the replay-gain album fields. -/
def scan_step (e : AudioMeta) (st0 : LoopSt) : Except LoopSt LoopSt := do
  -- lgdirectory.py:679-682 (the guard the source intends for a missing
  -- track number; see claim C6 for why it is unreachable)
  let tn : Nat ← match e.track_number with
    | none => Except.error { st0 with errors := st0.errors ++ [LgErr.EINVTAGS] }
    | some tn => pure tn
  -- continuity and duplicates, lgdirectory.py:689-703
  let st1 : LoopSt ← match st0.last_track_no with
    | none => pure st0
    | some last =>
        if tn ≠ last + 1 then
          if tn = last then
            pure { st0 with flags := { st0.flags with check_duplicates := true } }
          else
            Except.error { st0 with errors := st0.errors ++ [LgErr.EINCONSISTENT] }
        else pure st0
  let st1 := { st1 with last_track_no := some tn }
  -- filename prefix check, lgdirectory.py:705-725 (every parse failure is
  -- mapped to EINCONSISTENT by the except clause at line 722)
  let st2 ← match py_split_ws e.name with
    | [] => Except.error { st1 with errors := st1.errors ++ [LgErr.EINCONSISTENT] }
    | fpref :: _ =>
        if py_isdigit fpref = false then
          Except.error { st1 with errors := st1.errors ++ [LgErr.EINCONSISTENT] }
        else
          if digits_to_nat fpref ≠ tn then
            Except.error { st1 with errors := st1.errors ++ [LgErr.EINCONSISTENT] }
          else pure st1
  -- num_tracks, lgdirectory.py:727-733
  let st3 ← if st2.num_tracks = none ∧ e.num_tracks ≠ none then
      pure { st2 with num_tracks := e.num_tracks }
    else if st2.num_tracks ≠ e.num_tracks then
      Except.error { st2 with errors := st2.errors ++ [LgErr.EINCONSISTENT] }
    else pure st2
  -- num_discs, lgdirectory.py:735-741
  let st4 ← if st3.num_discs = none ∧ e.num_discs ≠ none then
      pure { st3 with num_discs := e.num_discs }
    else if st3.num_discs ≠ e.num_discs then
      Except.error { st3 with errors := st3.errors ++ [LgErr.EINCONSISTENT] }
    else pure st3
  -- disc_number, lgdirectory.py:743-749
  let st5 ← if st4.disc_number = none ∧ e.disc_number ≠ none then
      pure { st4 with disc_number := e.disc_number }
    else if st4.disc_number ≠ e.disc_number then
      Except.error { st4 with errors := st4.errors ++ [LgErr.EINCONSISTENT] }
    else pure st4
  -- album_id, lgdirectory.py:751-757
  let st6 ← if st5.album_id = none ∧ e.album_id ≠ none then
      pure { st5 with album_id := e.album_id }
    else if st5.album_id ≠ e.album_id then
      Except.error { st5 with errors := st5.errors ++ [LgErr.EINCONSISTENT] }
    else pure st5
  -- releasegroup_id, lgdirectory.py:759-765
  let st7 ← if st6.releasegroup_id = none ∧ e.releasegroup_id ≠ none then
      pure { st6 with releasegroup_id := e.releasegroup_id }
    else if st6.releasegroup_id ≠ e.releasegroup_id then
      Except.error { st6 with errors := st6.errors ++ [LgErr.EINCONSISTENT] }
    else pure st6
  -- album_gain / album_peak: mismatches are non-fatal, lgdirectory.py:767-781
  let st8 := if st7.album_gain = none ∧ e.album_gain ≠ none then
      { st7 with album_gain := e.album_gain }
    else if st7.album_gain ≠ e.album_gain then
      { st7 with flags := { st7.flags with needs_rgain := true } }
    else st7
  let st9 := if st8.album_peak = none ∧ e.album_peak ≠ none then
      { st8 with album_peak := e.album_peak }
    else if st8.album_peak ≠ e.album_peak then
      { st8 with flags := { st8.flags with needs_rgain := true } }
    else st8
  pure st9

/-- The `for entry in self.audio_files` loop (`lgdirectory.py:674-783`): folds
`scan_step` over the sorted file list, stopping at the first `break`. -/
def scan_loop : List AudioMeta → LoopSt → LoopSt
  | [], st => st
  | e :: rest, st =>
      match scan_step e st with
      | Except.error st2 => st2
      | Except.ok st2 => scan_loop rest st2

/-- Final part of the post-scan checks (`lgdirectory.py:843-865`): `num_discs
> 1` marks `PART_OF_SET`, a missing `album_gain`/`album_peak` marks
`NEEDS_RGAIN`, and the directory mutates to `LgDiscDirectory` when
`PART_OF_SET` else `LgAlbumDirectory`. -/
def post_scan_tail (st : LoopSt) : LoopSt × AudioDirKind :=
  let st1 := match st.num_discs with
    | some nd =>
        if nd ≠ 0 ∧ nd > 1 then
          { st with flags := { st.flags with part_of_set := true } }
        else st
    | none => st
  let st2 := if st1.album_gain = none ∨ st1.album_peak = none then
      { st1 with flags := { st1.flags with needs_rgain := true } }
    else st1
  if st2.flags.part_of_set then (st2, AudioDirKind.disc)
  else (st2, AudioDirKind.album)

/-- Post-scan checks of `LgAudioDirectory.__init__`
(`lgdirectory.py:787-865`), applied to the loop's final state and the audio
file count: loop errors short-circuit; missing `album_id` records
`EMISSINGTAGS`; missing or zero `num_tracks` records `EINVTAGS`; more files
than tracks sets `CHECK_DUPLICATES`; exactly one missing track records
`EINCONSISTENT`; more missing tracks set `PARTIAL_RELEASE`. -/
def post_scan_checks (st : LoopSt) (file_count : Nat) : LoopSt × AudioDirKind :=
  if st.errors ≠ [] then (st, AudioDirKind.plain)
  else if st.album_id = none then
    ({ st with errors := st.errors ++ [LgErr.EMISSINGTAGS] }, AudioDirKind.plain)
  else
    match st.num_tracks with
    | none => ({ st with errors := st.errors ++ [LgErr.EINVTAGS] }, AudioDirKind.plain)
    | some nt =>
        if nt = 0 then
          ({ st with errors := st.errors ++ [LgErr.EINVTAGS] }, AudioDirKind.plain)
        else if nt < file_count then
          post_scan_tail { st with flags := { st.flags with check_duplicates := true } }
        else if nt > file_count then
          if nt = file_count + 1 then
            ({ st with errors := st.errors ++ [LgErr.EINCONSISTENT] }, AudioDirKind.plain)
          else
            post_scan_tail { st with flags := { st.flags with p_release := true } }
        else post_scan_tail st

/-- Insert a file into an already-sorted list, after any file with an equal
or smaller track number (keeps the sort stable). -/
def insert_by_track (f : AudioMeta) : List AudioMeta → List AudioMeta
  | [] => [f]
  | b :: l =>
      if b.track_number.getD 0 ≤ f.track_number.getD 0 then
        b :: insert_by_track f l
      else f :: b :: l

/-- CPython's stable ascending `list.sort` with key `int(track_number)`
(`lgdirectory.py:672`), as a left fold of stable insertions; only called once
every `track_number` is present. -/
def sort_by_track_number (files : List AudioMeta) : List AudioMeta :=
  files.foldl (fun acc f => insert_by_track f acc) []

/-- `LgAudioDirectory.__init__` from `src/libguard/lgdirectory.py` (lines
617-865), restricted to the reconciliation logic: the `Standalone Recordings`
basename sets `STANDALONE` and skips every check (line 648-651); otherwise
the audio files are sorted ascending by `int(track_number)`
(line 672) — which raises `TypeError` when any file's `track_number` is
`None`, before the loop starts — and then scanned; finally the post-scan
checks run.  The result is the final state plus the directory kind. -/
def audio_dir_init (dir_name : String) (files : List AudioMeta) :
    Except PyExc (LoopSt × AudioDirKind) :=
  if dir_name = "Standalone Recordings" then
    Except.ok ({ init_loop_st with flags := { init_flags with standalone := true } },
      AudioDirKind.plain)
  else if files.any (fun f => decide (f.track_number = none)) then
    Except.error PyExc.typeError
  else
    let sorted := sort_by_track_number files
    Except.ok (post_scan_checks (scan_loop sorted init_loop_st) sorted.length)

/-- Projection: did the directory construction complete without a Python
exception? -/
def init_ok (r : Except PyExc (LoopSt × AudioDirKind)) : Bool :=
  match r with
  | Except.ok _ => true
  | Except.error _ => false

/-- Projection: error bag recorded on the constructed directory (empty when
construction raised). -/
def init_errors (r : Except PyExc (LoopSt × AudioDirKind)) : List LgErr :=
  match r with
  | Except.ok (st, _) => st.errors
  | Except.error _ => []

/-- Projection: the `CHECK_DUPLICATES` flag of the constructed directory. -/
def init_check_dup (r : Except PyExc (LoopSt × AudioDirKind)) : Bool :=
  match r with
  | Except.ok (st, _) => st.flags.check_duplicates
  | Except.error _ => false

/-- Claim C6 (code bug): evaluations of the reconciliation at concrete inputs.
A non-standalone audio directory containing a file with an absent
`track_number` makes construction raise `TypeError` from the sort key
`int(file.get_track_info().track_number)` at `lgdirectory.py:672`, before the
scan's own missing-track-number check at line 679 can record `EINVTAGS` —
construction is not total, contrary to the claim.  The other two conjuncts
confirm the claim's remaining parts at concrete inputs: a gap in track
numbers (1 then 3) records `EINCONSISTENT`, and a repeated track number
(1 twice) sets `CHECK_DUPLICATES`. -/
theorem claim_C6 :
    audio_dir_init "Album"
        [⟨"1 a.flac", none, some 1, none, none, some "X", some "G", none, none⟩] =
      Except.error PyExc.typeError ∧
    (init_ok (audio_dir_init "Album"
        [⟨"1 a.flac", some 1, some 2, none, none, some "X", some "G", none, none⟩,
         ⟨"3 b.flac", some 3, some 2, none, none, some "X", some "G", none, none⟩]) = true ∧
      LgErr.EINCONSISTENT ∈ init_errors (audio_dir_init "Album"
        [⟨"1 a.flac", some 1, some 2, none, none, some "X", some "G", none, none⟩,
         ⟨"3 b.flac", some 3, some 2, none, none, some "X", some "G", none, none⟩])) ∧
    (init_ok (audio_dir_init "Album"
        [⟨"1 a.flac", some 1, some 1, none, none, some "X", some "G", none, none⟩,
         ⟨"1 b.flac", some 1, some 1, none, none, some "X", some "G", none, none⟩]) = true ∧
      init_check_dup (audio_dir_init "Album"
        [⟨"1 a.flac", some 1, some 1, none, none, some "X", some "G", none, none⟩,
         ⟨"1 b.flac", some 1, some 1, none, none, some "X", some "G", none, none⟩]) = true) := by
  refine ⟨rfl, ⟨?_, ?_⟩, ⟨?_, ?_⟩⟩ <;> decide

lemma post_scan_tail_preserves (st : LoopSt) :
    (post_scan_tail st).1.errors = st.errors ∧
      (post_scan_tail st).1.flags.check_duplicates = st.flags.check_duplicates ∧
      (post_scan_tail st).1.flags.p_release = st.flags.p_release := by
  rcases hnd : st.num_discs with _ | nd <;>
    simp only [post_scan_tail, hnd] <;> split_ifs <;> simp

/-- Claim C7: for every loop state reaching the post-scan checks with an
empty error bag (an error-free non-standalone audio directory), the checks
record a missing `album_id` as `EMISSINGTAGS`; a missing or zero `num_tracks`
as `EINVTAGS`; `num_tracks` less than the file count sets `CHECK_DUPLICATES`
(and records no error); `num_tracks` equal to the file count plus one records
`EINCONSISTENT`; `num_tracks` greater than the file count plus one only sets
the `PARTIAL_RELEASE` flag (and records no error). -/
theorem claim_C7 (st : LoopSt) (n : Nat) (herr : st.errors = []) :
    (st.album_id = none →
      (post_scan_checks st n).1.errors = [LgErr.EMISSINGTAGS]) ∧
    (st.album_id ≠ none → (st.num_tracks = none ∨ st.num_tracks = some 0) →
      (post_scan_checks st n).1.errors = [LgErr.EINVTAGS]) ∧
    (∀ nt, st.album_id ≠ none → st.num_tracks = some nt → 0 < nt → nt < n →
      (post_scan_checks st n).1.flags.check_duplicates = true ∧
        (post_scan_checks st n).1.errors = []) ∧
    (∀ nt, st.album_id ≠ none → st.num_tracks = some nt → nt = n + 1 →
      (post_scan_checks st n).1.errors = [LgErr.EINCONSISTENT]) ∧
    (∀ nt, st.album_id ≠ none → st.num_tracks = some nt → n + 1 < nt →
      (post_scan_checks st n).1.errors = [] ∧
        (post_scan_checks st n).1.flags.p_release = true) := by
  refine ⟨?_, ?_, ?_, ?_, ?_⟩
  · intro ha
    simp [post_scan_checks, herr, ha]
  · intro ha hnt
    rcases hnt with h | h <;> simp [post_scan_checks, herr, ha, h]
  · intro nt ha hnt h0 hn
    have hz : ¬ nt = 0 := by omega
    have heq : post_scan_checks st n =
        post_scan_tail { st with flags := { st.flags with check_duplicates := true } } := by
      simp [post_scan_checks, herr, ha, hnt, hz, hn]
    rw [heq]
    have h1 := post_scan_tail_preserves
      { st with flags := { st.flags with check_duplicates := true } }
    exact ⟨by rw [h1.2.1], by rw [h1.1]; exact herr⟩
  · intro nt ha hnt hn
    subst hn
    have hz : ¬ n + 1 = 0 := by omega
    have hlt : ¬ n + 1 < n := by omega
    have hgt : n + 1 > n := by omega
    simp [post_scan_checks, herr, ha, hnt, hz, hlt, hgt]
  · intro nt ha hnt hn
    have hz : ¬ nt = 0 := by omega
    have hlt : ¬ nt < n := by omega
    have hgt : nt > n := by omega
    have hne : ¬ nt = n + 1 := by omega
    have heq : post_scan_checks st n =
        post_scan_tail { st with flags := { st.flags with p_release := true } } := by
      simp [post_scan_checks, herr, ha, hnt, hz, hlt, hgt, hne]
    rw [heq]
    have h1 := post_scan_tail_preserves
      { st with flags := { st.flags with p_release := true } }
    exact ⟨by rw [h1.1]; exact herr, by rw [h1.2.2]⟩

/-- Witness for claim C7 at concrete states: a clean loop state with no
`album_id` yields exactly `EMISSINGTAGS`, and a clean state with
`album_id = "X"`, `num_tracks = 1` over 2 files sets `CHECK_DUPLICATES`. -/
theorem claim_C7_witness :
    (post_scan_checks init_loop_st 3).1.errors = [LgErr.EMISSINGTAGS] ∧
    ((post_scan_checks
        ⟨[], init_flags, some 1, none, none, some "X", some "G", none, none, some 1⟩
        2).1.flags.check_duplicates = true ∧
      (post_scan_checks
        ⟨[], init_flags, some 1, none, none, some "X", some "G", none, none, some 1⟩
        2).1.errors = []) :=
  ⟨(claim_C7 init_loop_st 3 rfl).1 rfl,
    (claim_C7 ⟨[], init_flags, some 1, none, none, some "X", some "G", none, none, some 1⟩
      2 rfl).2.2.1 1 (by decide) rfl (by decide) (by decide)⟩

/-! ## Claims C8 and C10: the index store (`LgIndexer`,
`src/libguard/lgindexer.py`) -/

/-- The two tables of the index database: `release_groups` rows as
`(releasegroup_id, path)` pairs and `albums` rows as `(album_id, path)`
pairs, in insertion order (the surrogate `id` column is irrelevant here). -/
structure IndexDb where
  release_groups : List (String × String)
  albums : List (String × String)
  deriving DecidableEq, Repr

/-- The duplicate-location test of `add_album`
(`src/libguard/lgindexer.py` lines 123-147): the queried rows carrying the
same `releasegroup_id` (resp. `album_id`) under a different path, filtered by
the `if row and row[0]` truthiness guard (a row whose path is the empty
string does not count). -/
def dup_locations_found (db : IndexDb) (path releasegroup_id album_id : String) :
    Bool :=
  ((db.release_groups.filter
      (fun r => decide (r.1 = releasegroup_id ∧ r.2 ≠ path))).map Prod.snd).any
    (fun q => decide (q ≠ "")) ||
  ((db.albums.filter
      (fun r => decide (r.1 = album_id ∧ r.2 ≠ path))).map Prod.snd).any
    (fun q => decide (q ≠ ""))

/-- `LgIndexer.add_album` from `src/libguard/lgindexer.py` (lines 85-174) on
the path where no `sqlite3.Error` is raised: empty arguments are rejected; if
both exact rows exist nothing happens; otherwise duplicate locations suppress
the insert; else the missing row(s) are inserted in one transaction (the
transaction itself is atomic here, matching the single `with self.db_handle`
block). -/
def add_album (db : IndexDb) (directory_path releasegroup_id album_id : String) :
    IndexDb :=
  if directory_path = "" then db
  else if releasegroup_id = "" ∨ album_id = "" then db
  else
    let path := directory_path
    let rg_exists := (releasegroup_id, path) ∈ db.release_groups
    let album_exists := (album_id, path) ∈ db.albums
    if rg_exists ∧ album_exists then db
    else if dup_locations_found db path releasegroup_id album_id then db
    else
      let db1 := if rg_exists then db
        else { db with release_groups := db.release_groups ++ [(releasegroup_id, path)] }
      if album_exists then db1
      else { db1 with albums := db1.albums ++ [(album_id, path)] }

lemma any_dup_path_iff (l : List (String × String)) (idv pathv : String)
    (hinv : ∀ r ∈ l, r.2 ≠ "") :
    (((l.filter (fun r => decide (r.1 = idv ∧ r.2 ≠ pathv))).map Prod.snd).any
        (fun q => decide (q ≠ "")) = true) ↔
      ∃ q, (idv, q) ∈ l ∧ q ≠ pathv := by
  rw [List.any_eq_true]
  constructor
  · rintro ⟨q, hq, hqe⟩
    rw [List.mem_map] at hq
    obtain ⟨r, hr, hrq⟩ := hq
    rw [List.mem_filter] at hr
    obtain ⟨hrl, hrp⟩ := hr
    rw [decide_eq_true_eq] at hrp
    obtain ⟨hr1, hr2⟩ := hrp
    refine ⟨q, ?_, ?_⟩
    · have hrr : r = (idv, q) := by
        obtain ⟨x, y⟩ := r
        cases hr1
        cases hrq
        rfl
      rwa [hrr] at hrl
    · rw [← hrq]
      exact hr2
  · rintro ⟨q, hql, hqp⟩
    refine ⟨q, ?_, ?_⟩
    · rw [List.mem_map]
      refine ⟨(idv, q), ?_, rfl⟩
      rw [List.mem_filter]
      exact ⟨hql, by simp [hqp]⟩
    · simpa using hinv _ hql

lemma dup_locations_found_iff (db : IndexDb) (p rg a : String)
    (hrg_inv : ∀ r ∈ db.release_groups, r.2 ≠ "")
    (hal_inv : ∀ r ∈ db.albums, r.2 ≠ "") :
    dup_locations_found db p rg a = true ↔
      ((∃ q, (rg, q) ∈ db.release_groups ∧ q ≠ p) ∨
        (∃ q, (a, q) ∈ db.albums ∧ q ≠ p)) := by
  unfold dup_locations_found
  rw [Bool.or_eq_true, any_dup_path_iff _ _ _ hrg_inv, any_dup_path_iff _ _ _ hal_inv]

/-- Claim C8: under the indexer's own invariant that every stored path is
non-empty (`add_album` refuses empty paths, so it only ever inserts non-empty
ones) and for non-empty arguments, `add_album` (1) is a no-op when both exact
rows exist, (2) inserts nothing when the same `releasegroup_id` or the same
`album_id` exists under a different path, and (3) otherwise appends exactly
the missing row(s). -/
theorem claim_C8 (db : IndexDb) (p rg a : String)
    (hrg_inv : ∀ r ∈ db.release_groups, r.2 ≠ "")
    (hal_inv : ∀ r ∈ db.albums, r.2 ≠ "")
    (hp : p ≠ "") (hrg : rg ≠ "") (ha : a ≠ "") :
    ((rg, p) ∈ db.release_groups ∧ (a, p) ∈ db.albums →
      add_album db p rg a = db) ∧
    ((∃ q, (rg, q) ∈ db.release_groups ∧ q ≠ p) ∨
        (∃ q, (a, q) ∈ db.albums ∧ q ≠ p) →
      add_album db p rg a = db) ∧
    (¬ ((∃ q, (rg, q) ∈ db.release_groups ∧ q ≠ p) ∨
        (∃ q, (a, q) ∈ db.albums ∧ q ≠ p)) →
      add_album db p rg a =
        { release_groups :=
            if (rg, p) ∈ db.release_groups then db.release_groups
            else db.release_groups ++ [(rg, p)],
          albums :=
            if (a, p) ∈ db.albums then db.albums
            else db.albums ++ [(a, p)] }) := by
  have hdup := dup_locations_found_iff db p rg a hrg_inv hal_inv
  refine ⟨?_, ?_, ?_⟩
  · rintro ⟨h1, h2⟩
    simp [add_album, hp, hrg, ha, h1, h2]
  · intro hdups
    by_cases hboth : (rg, p) ∈ db.release_groups ∧ (a, p) ∈ db.albums
    · simp [add_album, hp, hrg, ha, hboth.1, hboth.2]
    · have hd : dup_locations_found db p rg a = true := hdup.mpr hdups
      simp [add_album, hp, hrg, ha, hboth, hd]
  · intro hnodup
    have hd : dup_locations_found db p rg a = false := by
      rcases Bool.eq_false_or_eq_true (dup_locations_found db p rg a) with h | h
      · exact absurd (hdup.mp h) hnodup
      · exact h
    by_cases hboth : (rg, p) ∈ db.release_groups ∧ (a, p) ∈ db.albums
    · simp [add_album, hp, hrg, ha, hboth.1, hboth.2]
    · by_cases h1 : (rg, p) ∈ db.release_groups <;>
        by_cases h2 : (a, p) ∈ db.albums
      · exact absurd ⟨h1, h2⟩ hboth
      all_goals simp [add_album, hp, hrg, ha, h1, h2, hd, hboth]

/-- Witness for claim C8: on a database holding `("G", "/x")` and
`("A", "/x")`, re-adding the same album at `/x` is a no-op, adding it at a
different path `/y` inserts nothing, and adding a fresh album `("G2", "A2")`
at `/y` appends exactly the two missing rows. -/
theorem claim_C8_witness :
    (add_album ⟨[("G", "/x")], [("A", "/x")]⟩ "/x" "G" "A" =
      ⟨[("G", "/x")], [("A", "/x")]⟩) ∧
    (add_album ⟨[("G", "/x")], [("A", "/x")]⟩ "/y" "G" "A" =
      ⟨[("G", "/x")], [("A", "/x")]⟩) ∧
    (add_album ⟨[("G", "/x")], [("A", "/x")]⟩ "/y" "G2" "A2" =
      ⟨[("G", "/x"), ("G2", "/y")], [("A", "/x"), ("A2", "/y")]⟩) := by
  refine ⟨?_, ?_, ?_⟩
  · exact (claim_C8 ⟨[("G", "/x")], [("A", "/x")]⟩ "/x" "G" "A"
      (by decide) (by decide) (by decide) (by decide) (by decide)).1
        (by constructor <;> decide)
  · exact (claim_C8 ⟨[("G", "/x")], [("A", "/x")]⟩ "/y" "G" "A"
      (by decide) (by decide) (by decide) (by decide) (by decide)).2.1
        (Or.inl ⟨"/x", by decide, by decide⟩)
  · have h := (claim_C8 ⟨[("G", "/x")], [("A", "/x")]⟩ "/y" "G2" "A2"
      (by decide) (by decide) (by decide) (by decide) (by decide)).2.2
        (by
          rintro (⟨q, hq, -⟩ | ⟨q, hq, -⟩) <;>
            · rw [List.mem_singleton] at hq
              injection hq with hfst hsnd
              exact absurd hfst (by decide))
    rw [h]
    decide

/-- Claim C10: the local names bound in the scope of `LgIndexer.add_album`
when its `except sqlite3.Error` handler at `src/libguard/lgindexer.py`
lines 172-174 runs.  The exception is bound as `err`; the name `e` is not
among them. -/
def add_album_local_names : List String :=
  ["self", "directory_path", "releasegroup_id", "album_id", "path", "cursor",
   "rg_exists", "album_exists", "existing_rg_paths", "existing_album_paths",
   "duplicates_found", "row", "err"]

/-- The `except sqlite3.Error` handler of `add_album`
(`src/libguard/lgindexer.py` lines 172-174): its first statement formats
`f"Error adding album to database: {str(e)}"`; evaluating the f-string looks
up the name `e` in the local scope, and an unbound name raises `NameError`
before the `raise LgException(LgErr.EDBERR, ...)` on the next line can run. -/
def add_album_exc_handler : PyExc :=
  if "e" ∈ add_album_local_names then PyExc.lgError LgErr.EDBERR
  else PyExc.nameError

/-- `add_album` including its exception handling: when some underlying
database operation raises `sqlite3.Error` (all of them are covered by the
single `try` at `lgindexer.py:100-174`), control reaches the handler; on the
no-error path the pure transition `add_album` runs. -/
def add_album_run (db : IndexDb) (directory_path releasegroup_id album_id : String)
    (db_raises : Bool) : Except PyExc IndexDb :=
  if db_raises then Except.error add_album_exc_handler
  else Except.ok (add_album db directory_path releasegroup_id album_id)

/-- Claim C10: for every call of `add_album` in which an underlying database
operation raises `sqlite3.Error`, the handler itself raises `NameError` (it
formats the unbound name `e`; the caught exception is named `err`), so the
caller receives `NameError` and never the `LgException` carrying `EDBERR`
that the handler is written to raise. -/
theorem claim_C10 (db : IndexDb) (p rg a : String) :
    add_album_run db p rg a true = Except.error PyExc.nameError ∧
      add_album_run db p rg a true ≠
        Except.error (PyExc.lgError LgErr.EDBERR) := by
  constructor <;> simp [add_album_run, add_album_exc_handler, add_album_local_names]

/-! ## Claim C9: TrackInfo identity
(`LgAudioFile.TrackInfo`, `src/libguard/lgfile.py` lines 381-498) -/

/-- The fields of `LgAudioFile.TrackInfo` that `freeze` hashes
(`src/libguard/lgfile.py` lines 448-498): the identity tuple, the stream
characteristics, and `_unique_id` (a fresh `uuid.uuid4().hex` generated per
instance, modelled as a natural number). -/
structure TrackIdFields where
  track_number : Option Nat
  num_tracks : Option Nat
  disc_number : Option Nat
  num_discs : Option Nat
  album_id : Option String
  releasegroup_id : Option String
  sample_rate : Option Nat
  bit_rate : Option Nat
  bit_depth : Option Nat
  duration_secs : Option Nat
  unique_id : Nat
  deriving DecidableEq, Repr

/-- The `is_standalone` test inside `TrackInfo.freeze`
(`src/libguard/lgfile.py` lines 460-465). -/
def is_standalone (t : TrackIdFields) : Bool :=
  decide (t.album_id = none) && decide (t.releasegroup_id = none) &&
    (decide (t.track_number = none) || decide (t.num_tracks = none)) &&
    (decide (t.disc_number = none) || decide (t.num_discs = none))

/-- The tuple `TrackInfo.freeze` hashes (`src/libguard/lgfile.py` lines
467-487): standalone tracks hash `(_unique_id, sample_rate, bit_rate,
bit_depth, duration_secs)`; album tracks hash the identity tuple.  Python's
`hash` of these tuples is modelled as injective (the two constructors keep
the tuples of different shapes apart, as the distinct tuple arities do). -/
inductive TrackHashKey where
  | standalone (uid : Nat) (sr br bd dur : Option Nat)
  | album (tn nt dn nd : Option Nat) (aid rgid : Option String)
  deriving DecidableEq, Repr

/-- `TrackInfo.freeze` from `src/libguard/lgfile.py` (lines 454-488),
restricted to the hash key it computes and stores in `_hash`. -/
def freeze_key (t : TrackIdFields) : TrackHashKey :=
  if is_standalone t then
    TrackHashKey.standalone t.unique_id t.sample_rate t.bit_rate t.bit_depth
      t.duration_secs
  else
    TrackHashKey.album t.track_number t.num_tracks t.disc_number t.num_discs
      t.album_id t.releasegroup_id

/-- `TrackInfo.__eq__` from `src/libguard/lgfile.py` (lines 495-498) on two
frozen infos: `hash(self) == hash(other)`, with `hash` modelled by
`freeze_key`. -/
def track_info_eq (t1 t2 : TrackIdFields) : Bool :=
  decide (freeze_key t1 = freeze_key t2)

/-- Claim C9: two standalone TrackInfos (no `album_id`, no
`releasegroup_id`, no track/disc counts) built from distinct files — hence
with distinct freshly generated unique ids — are never equal; equality of two
album-track (non-standalone) TrackInfos holds exactly when their identity
tuples `(track_number, num_tracks, disc_number, num_discs, album_id,
releasegroup_id)` coincide. -/
theorem claim_C9 :
    (∀ t1 t2 : TrackIdFields,
      t1.album_id = none → t1.releasegroup_id = none →
      t1.num_tracks = none → t1.num_discs = none →
      t2.album_id = none → t2.releasegroup_id = none →
      t2.num_tracks = none → t2.num_discs = none →
      t1.unique_id ≠ t2.unique_id →
      track_info_eq t1 t2 = false) ∧
    (∀ t1 t2 : TrackIdFields,
      is_standalone t1 = false → is_standalone t2 = false →
      (track_info_eq t1 t2 = true ↔
        (t1.track_number = t2.track_number ∧ t1.num_tracks = t2.num_tracks ∧
          t1.disc_number = t2.disc_number ∧ t1.num_discs = t2.num_discs ∧
          t1.album_id = t2.album_id ∧
          t1.releasegroup_id = t2.releasegroup_id))) := by
  constructor
  · intro t1 t2 ha1 hr1 hn1 hd1 ha2 hr2 hn2 hd2 huid
    have hs1 : is_standalone t1 = true := by
      simp [is_standalone, ha1, hr1, hn1, hd1]
    have hs2 : is_standalone t2 = true := by
      simp [is_standalone, ha2, hr2, hn2, hd2]
    simp only [track_info_eq, freeze_key, hs1, hs2, if_true, decide_eq_false_iff_not]
    intro hkey
    injection hkey with huid2
    exact huid huid2
  · intro t1 t2 hs1 hs2
    simp only [track_info_eq, freeze_key, hs1, hs2, Bool.false_eq_true,
      if_false, decide_eq_true_eq, TrackHashKey.album.injEq]

/-- Witness for claim C9: two concrete standalone tracks with distinct unique
ids are unequal; two concrete album tracks with the same identity tuple but
different stream fields are equal. -/
theorem claim_C9_witness :
    track_info_eq
        ⟨some 1, none, none, none, none, none, some 44100, some 1000, some 16, some 200, 1⟩
        ⟨some 1, none, none, none, none, none, some 44100, some 1000, some 16, some 200, 2⟩
      = false ∧
    (track_info_eq
        ⟨some 1, some 2, some 1, some 1, some "X", some "G", some 44100, none, none, none, 3⟩
        ⟨some 1, some 2, some 1, some 1, some "X", some "G", some 48000, none, none, none, 4⟩
      = true ↔ True) :=
  ⟨claim_C9.1 _ _ rfl rfl rfl rfl rfl rfl rfl rfl (by decide),
    by
      rw [claim_C9.2 _ _ (by decide) (by decide)]
      simp⟩

end Libguard
